import Mathlib

/-!
Shallow embedding of `src/winapiwrapper/process.rs` from the manualmap-rs
repository: the `Process` handle-owning entity with its memory I/O,
protection-change, module-lookup and handle-release operations.

The platform API (`OpenProcess`, `WriteProcessMemory`, `ReadProcessMemory`,
`VirtualProtectEx`, `GetProcessId`, `CloseHandle`,
`CreateToolhelp32Snapshot`) is an external, opaque boundary; it is modelled
as an environment `NativeApi` of uninterpreted functions following the
return-code conventions the platform documents (null handle / zero return
means failure).  Quantifying a theorem over every `NativeApi` expresses
that the property holds whatever the native calls answer; a result that is
a fixed value for every environment is in particular produced without
consulting any native call.

Handles (`HANDLE`, a pointer-sized value in the source) are modelled as
`Int`, so the null handle is `0` and the current-process pseudo-handle is
`-1` (the source itself states "-1 is the pseudo handle for the current
process").  Byte buffers are `List Nat`; machine sizes are `Nat`.
-/

set_option autoImplicit false

namespace Winapiwrapper

/-- `Error` from `src/winapiwrapper/error.rs` (module referenced by the
source): a uniform failure value carrying a human-readable message. -/
structure Error where
  message : String
deriving DecidableEq

/-- A module entry record (`MODULEENTRY32`).  The lookup in the source
consults only the `szModule` display-name field, decoding it from a raw
C string; the decode can fail on malformed text, so the field is modelled
as the decode result: `some s` when `szModule` decodes to the text `s`,
`none` when decoding fails.  The remaining fields (base address, size,
pid, ...) are never consulted by the modelled operations and are omitted. -/
structure MODULEENTRY32 where
  szModule : Option String
deriving DecidableEq

/-- The opaque platform API surface, one uninterpreted function per native
entry point used by `process.rs`.  Field conventions follow the platform
contract: a returned handle of `0` is the null handle; an `Int` return
code of `0` signals failure; the second component of a pair is the value
the native call writes through its out-parameter
(bytes written / bytes read / previous protection).
`createToolhelp32Snapshot` takes the category flags and the pid and
yields the module entries the enumeration would produce (`none` on
native failure to create the snapshot). -/
structure NativeApi where
  openProcess : Nat → Nat → Nat → Int
  getProcessId : Int → Nat
  writeProcessMemory : Int → Nat → List Nat → Int × Nat
  readProcessMemory : Int → Nat → Nat → Int × Nat
  virtualProtectEx : Int → Nat → Nat → Nat → Int × Nat
  closeHandle : Int → Int
  createToolhelp32Snapshot : Nat → Nat → Option (List MODULEENTRY32)

/-- `pub struct Process { handle: HANDLE }` -/
structure Process where
  handle : Int
deriving DecidableEq

/-- The current-process pseudo-handle returned by `GetCurrentProcess`:
the sentinel value `-1`, as the source's own comment records
("-1 is the pseudo handle for the current process"); the platform
contract says this call never fails. -/
def getCurrentProcess : Int := -1

/-- `HandleOwner::from_handle` (trait impl at the bottom of the source):
wraps an existing handle without validation. -/
def Process.from_handle (handle : Int) : Process :=
  ⟨handle⟩

/-- `Process::from_pid`: calls `OpenProcess(access.bits(), inherit as i32, pid)`
and fails iff the returned handle is null. -/
def Process.from_pid (api : NativeApi) (pid : Nat) (access : Nat) (inherit : Bool) :
    Except Error Process :=
  let handle := api.openProcess access (if inherit then 1 else 0) pid
  if handle = 0 then
    Except.error ⟨"OpenProcess returned NULL"⟩
  else
    Except.ok ⟨handle⟩

/-- `Process::from_current`: wraps the `GetCurrentProcess` pseudo-handle.
The function is total (return type `Self` in the source, not `Result`):
it cannot fail. -/
def Process.from_current : Process :=
  Process.from_handle getCurrentProcess

/-- `Process::pid`: `GetProcessId`, zero treated as failure. -/
def Process.pid (api : NativeApi) (p : Process) : Except Error Nat :=
  let pid := api.getProcessId p.handle
  if pid = 0 then
    Except.error ⟨"GetProcessId returned NULL"⟩
  else
    Except.ok pid

/-- `Process::write_memory`: rejects a null address before any native
call, then forwards to `WriteProcessMemory` and maps a zero return code
to an error, otherwise returns the bytes-written out-parameter. -/
def Process.write_memory (api : NativeApi) (p : Process) (data : List Nat) (address : Nat) :
    Except Error Nat :=
  if address = 0 then
    Except.error ⟨"Address to write to is null"⟩
  else
    let r := api.writeProcessMemory p.handle address data
    if r.1 = 0 then
      Except.error ⟨"WriteProcessMemory failed"⟩
    else
      Except.ok r.2

/-- `Process::read_memory`: rejects a null address, then an empty buffer,
before any native call; then forwards to `ReadProcessMemory` with the
buffer length and maps a zero return code to an error, otherwise returns
the bytes-read out-parameter. -/
def Process.read_memory (api : NativeApi) (p : Process) (buffer : List Nat) (address : Nat) :
    Except Error Nat :=
  if address = 0 then
    Except.error ⟨"Address to read from is null"⟩
  else if buffer.isEmpty then
    Except.error ⟨"Buffer length is zero"⟩
  else
    let r := api.readProcessMemory p.handle address buffer.length
    if r.1 = 0 then
      Except.error ⟨"ReadProcessMemory failed"⟩
    else
      Except.ok r.2

/-- `Process::virtual_protect`: calls `VirtualProtectEx` and, on a
non-zero return code, returns the value the native call wrote to its
`old_protect` out-parameter (the protection previously in effect);
on a zero return code it fails. -/
def Process.virtual_protect (api : NativeApi) (p : Process) (address : Nat) (size : Nat)
    (protect : Nat) : Except Error Nat :=
  let r := api.virtualProtectEx p.handle address size protect
  if r.1 ≠ 0 then
    Except.ok r.2
  else
    Except.error ⟨"VirtualProtectEx returned NULL"⟩

/-- `HandleOwner::is_handle_closable` for `Process`:
`self.handle as isize != -1`. -/
def Process.is_handle_closable (p : Process) : Bool :=
  p.handle ≠ -1

/-- Modelled from the spec: `HandleOwner::close_handle`, the default
method of the `HandleOwner` trait (`src/winapiwrapper/handleowner.rs`,
not present under `src/`).  Per the spec: if `is_handle_closable()` is
true it invokes the native close primitive and fails with an error when
that call reports failure (zero return); otherwise it succeeds as a
no-op. -/
def Process.close_handle (api : NativeApi) (p : Process) : Except Error Unit :=
  if p.is_handle_closable then
    if api.closeHandle p.handle = 0 then
      Except.error ⟨"CloseHandle failed"⟩
    else
      Except.ok ()
  else
    Except.ok ()

/-- `impl Drop for Process`: `self.close_handle().unwrap()`.
`unwrap` on an `Err` panics, so the drop glue does not return normally
when the release fails: `none` models the panic (abort of normal control
flow), `some ()` the normal return. -/
def Process.drop (api : NativeApi) (p : Process) : Option Unit :=
  match Process.close_handle api p with
  | Except.ok u => some u
  | Except.error _ => none

/-- `char::to_ascii_lowercase`: maps only the ASCII uppercase letters
A-Z to a-z and leaves every other character unchanged. -/
def asciiLowerChar (c : Char) : Char :=
  if 'A' ≤ c ∧ c ≤ 'Z' then Char.ofNat (c.toNat + 32) else c

/-- `str::to_ascii_lowercase` over the characters of a string. -/
def asciiLower (s : String) : String :=
  ⟨s.data.map asciiLowerChar⟩

/-- The stem kept by `Path::set_extension` for a single-component file
name, as a character list: everything before the last `.`, except that a
`.` at position 0 (a leading dot, as in `.foo`) does not start an
extension, so the whole name is the stem.  Working on the reverse list:
the characters after the first `.` of the reverse are the reversed stem,
unless nothing follows that dot (the dot was at position 0). -/
def dropLastExt (cs : List Char) : List Char :=
  match (cs.reverse).dropWhile (fun c => c ≠ '.') with
  | [] => cs
  | _ :: rest => if rest = [] then cs else rest.reverse

/-- `Path::new(name).with_extension("dll")` for a single-component
relative path (the source always passes a bare module name): replaces
any existing extension of the file name with `.dll`, appending `.dll`
when there is none.  `""`, `"."` and `".."` have no file name, so
`set_extension` leaves them unchanged. -/
def withExtensionDll (s : String) : String :=
  if s = "" ∨ s = "." ∨ s = ".." then s
  else ⟨dropLastExt s.data ++ ['.', 'd', 'l', 'l']⟩

/-- `Path::to_str` on the normalized path.  The path was built from a
Rust `&str`, which is valid UTF-8, and appending `.dll` keeps it so;
in the model strings are always valid text, hence always `some`.
(The source still checks for `None` and maps it to an error.) -/
def pathToStr (s : String) : Option String :=
  some s

/-- `TH32CS_SNAPMODULE` category flag. -/
def TH32CS_SNAPMODULE : Nat := 0x00000008

/-- `TH32CS_SNAPMODULE32` category flag. -/
def TH32CS_SNAPMODULE32 : Nat := 0x00000010

/-- Modelled from the spec: `Snapshot`
(`src/winapiwrapper/snapshot.rs`, not present under `src/`): a
point-in-time enumeration handle whose module entries are fixed at
snapshot-creation time; modelled as the finite list of module records
the enumeration yields. -/
structure Snapshot where
  entries : List MODULEENTRY32
deriving DecidableEq

/-- Modelled from the spec: `Snapshot::from_pid(pid, flags)` requests a
native enumeration handle scoped to `pid` and the requested categories
and fails with `Error` on native failure (invalid handle). -/
def Snapshot.from_pid (api : NativeApi) (pid : Nat) (flags : Nat) : Except Error Snapshot :=
  match api.createToolhelp32Snapshot flags pid with
  | none => Except.error ⟨"CreateToolhelp32Snapshot failed"⟩
  | some entries => Except.ok ⟨entries⟩

/-- Modelled from the spec: `Snapshot::module_entries(pid)` produces the
lazy, finite, single-pass sequence of module records captured at
snapshot time (the pid argument mirrors the source call; the entries
were fixed when the snapshot was created). -/
def Snapshot.module_entries (snap : Snapshot) (_pid : Nat) : List MODULEENTRY32 :=
  snap.entries

/-- `Process::snapshot`: `Snapshot::from_pid(self.pid()?, flags)`. -/
def Process.snapshot (api : NativeApi) (p : Process) (flags : Nat) : Except Error Snapshot :=
  match Process.pid api p with
  | Except.error e => Except.error e
  | Except.ok pid => Snapshot.from_pid api pid flags

/-- The `filter_map(...).next()` scan inside `module_entry_by_name`:
walk the entries in order; an entry whose `szModule` fails to decode
yields `some (error ...)` (the first mapped element, ending the scan);
an entry whose lowercased decoded name equals the target yields
`some (ok entry)`; all other entries are skipped.  `none` means the scan
ran off the end with no mapped element. -/
def findModuleEntry (target : String) : List MODULEENTRY32 → Option (Except Error MODULEENTRY32)
  | [] => none
  | e :: rest =>
    match e.szModule with
    | none => some (Except.error ⟨"Failed to construct CStr from MODULEENTRY32.szModule"⟩)
    | some s =>
      if asciiLower s = target then some (Except.ok e) else findModuleEntry target rest

/-- `Process::module_entry_by_name`: normalizes the name (force a `.dll`
extension via `Path::with_extension`, convert to a `&str`, lowercase),
takes a module-category snapshot (itself consulting `pid`), calls `pid`
again for `module_entries`, scans for the first decode failure or
case-insensitive match, and finally maps the scan result: a found entry
to `Ok(Some(entry))`, a decode failure to that error, no mapped element
to `Ok(None)`. -/
def Process.module_entry_by_name (api : NativeApi) (p : Process) (name : String) :
    Except Error (Option MODULEENTRY32) :=
  match pathToStr (withExtensionDll name) with
  | none => Except.error ⟨"Failed to construct Path for module"⟩
  | some nm =>
    let nm := asciiLower nm
    match Process.snapshot api p (TH32CS_SNAPMODULE ||| TH32CS_SNAPMODULE32) with
    | Except.error e => Except.error e
    | Except.ok snap =>
      match Process.pid api p with
      | Except.error e => Except.error e
      | Except.ok pid =>
        match findModuleEntry nm (snap.module_entries pid) with
        | some (Except.ok e) => Except.ok (some e)
        | some (Except.error err) => Except.error err
        | none => Except.ok none

/-- A concrete environment in which every native call fails
(null handles, zero return codes, no snapshot). -/
def apiZero : NativeApi :=
  ⟨fun _ _ _ => 0, fun _ => 0, fun _ _ _ => (0, 0), fun _ _ _ => (0, 0),
    fun _ _ _ _ => (0, 0), fun _ => 0, fun _ _ => none⟩

/-- A concrete environment in which every native call succeeds: handles
are `1`, return codes are `1`, the write/read out-parameters report the
full requested length, `VirtualProtectEx` reports `7` as the previous
protection, and the snapshot is empty. -/
def apiOne : NativeApi :=
  ⟨fun _ _ _ => 1, fun _ => 1, fun _ _ d => (1, d.length), fun _ _ n => (1, n),
    fun _ _ _ _ => (1, 7), fun _ => 1, fun _ _ => some []⟩

/-- A concrete environment whose module snapshot holds a single module
named `foo.dll` (and whose pid query succeeds), all other calls
succeeding as in `apiOne`. -/
def apiFoo : NativeApi :=
  ⟨fun _ _ _ => 1, fun _ => 1, fun _ _ d => (1, d.length), fun _ _ n => (1, n),
    fun _ _ _ _ => (1, 7), fun _ => 1, fun _ _ => some [⟨some "foo.dll"⟩]⟩

/-- A concrete environment whose module snapshot holds a module named
`foo.exe` followed by one named `foo.dll`. -/
def apiFooExe : NativeApi :=
  ⟨fun _ _ _ => 1, fun _ => 1, fun _ _ d => (1, d.length), fun _ _ n => (1, n),
    fun _ _ _ _ => (1, 7), fun _ => 1,
    fun _ _ => some [⟨some "foo.exe"⟩, ⟨some "foo.dll"⟩]⟩

/-- A concrete environment whose module snapshot holds a single module
named `bar.dll`. -/
def apiBar : NativeApi :=
  ⟨fun _ _ _ => 1, fun _ => 1, fun _ _ d => (1, d.length), fun _ _ n => (1, n),
    fun _ _ _ _ => (1, 7), fun _ => 1, fun _ _ => some [⟨some "bar.dll"⟩]⟩

/-!
### Memory-refined model for the write/read round trip

The round-trip property is about what the platform write and read calls
do to the target process's memory, which is outside the repository
(`WriteProcessMemory` / `ReadProcessMemory` are the opaque boundary).
The refinement below instantiates the boundary with the contract the
spec's external-interface table documents: a successful write stores the
data bytes at the given addresses and reports the full length, a
successful read returns the bytes currently stored there, and
success/failure of an access depends only on the targeted region (so a
region that was just written, with no intervening mutation of it, is
still accessible to the read).
-/

/-- Modelled from the spec: the target process's memory and the
platform's judgment of which accesses succeed.  `mem` gives the byte
stored at each address; `accessible address len` tells whether a
read/write of `len` bytes at `address` succeeds (non-zero native return
code).  "No intervening mutation of that memory region" means both
components are unchanged between the write and the read except for the
bytes the write itself stored. -/
structure MemEnv where
  mem : Nat → Nat
  accessible : Nat → Nat → Bool

/-- The effect of a successful native write: the bytes of `data` overlay
the previous contents starting at `addr`. -/
def memWrite (m : Nat → Nat) (addr : Nat) (data : List Nat) : Nat → Nat :=
  fun a => if addr ≤ a ∧ a - addr < data.length then data.getD (a - addr) 0 else m a

/-- The bytes a successful native read of `len` bytes at `addr` returns. -/
def memRead (m : Nat → Nat) (addr : Nat) (len : Nat) : List Nat :=
  (List.range len).map fun i => m (addr + i)

/-- `Process::write_memory` over the memory-refined boundary: the same
guard and error mapping as `Process.write_memory`, with the native call
interpreted by `MemEnv`; on success it returns the bytes-written count
(the full length, per the boundary contract) and the updated memory. -/
def Process.write_memory_mem (_p : Process) (env : MemEnv) (data : List Nat) (address : Nat) :
    Except Error (Nat × MemEnv) :=
  if address = 0 then
    Except.error ⟨"Address to write to is null"⟩
  else if env.accessible address data.length then
    Except.ok (data.length, ⟨memWrite env.mem address data, env.accessible⟩)
  else
    Except.error ⟨"WriteProcessMemory failed"⟩

/-- `Process::read_memory` over the memory-refined boundary: the same
guards and error mapping as `Process.read_memory`; on success it returns
the bytes-read count and the bytes read into the buffer. -/
def Process.read_memory_mem (_p : Process) (env : MemEnv) (buflen : Nat) (address : Nat) :
    Except Error (Nat × List Nat) :=
  if address = 0 then
    Except.error ⟨"Address to read from is null"⟩
  else if buflen = 0 then
    Except.error ⟨"Buffer length is zero"⟩
  else if env.accessible address buflen then
    Except.ok (buflen, memRead env.mem address buflen)
  else
    Except.error ⟨"ReadProcessMemory failed"⟩

/-- A concrete memory environment: all-zero memory, every access
allowed. -/
def envZeroAll : MemEnv :=
  ⟨fun _ => 0, fun _ _ => true⟩

/-!
### Theorems
-/

/-- The scan finds nothing when every entry decodes and no decoded name
matches the target after lowercasing. -/
theorem findModuleEntry_eq_none (target : String) (es : List MODULEENTRY32)
    (h : ∀ e ∈ es, ∃ s, e.szModule = some s ∧ asciiLower s ≠ target) :
    findModuleEntry target es = none := by
  induction es with
  | nil => rfl
  | cons e rest ih =>
    obtain ⟨s, hs, hne⟩ := h e (List.mem_cons_self e rest)
    simp only [findModuleEntry, hs, if_neg hne]
    exact ih fun x hx => h x (List.mem_cons_of_mem _ hx)

/-- The scan yields an error only by hitting an entry whose `szModule`
fails to decode. -/
theorem findModuleEntry_error_decode_failure (target : String) (es : List MODULEENTRY32)
    (err : Error) (h : findModuleEntry target es = some (Except.error err)) :
    ∃ e ∈ es, e.szModule = none := by
  induction es with
  | nil => simp [findModuleEntry] at h
  | cons e rest ih =>
    cases hs : e.szModule with
    | none => exact ⟨e, List.mem_cons_self e rest, hs⟩
    | some s =>
      simp only [findModuleEntry, hs] at h
      by_cases hm : asciiLower s = target
      · simp [if_pos hm] at h
      · obtain ⟨x, hx, hxd⟩ := ih (by simpa [if_neg hm] using h)
        exact ⟨x, List.mem_cons_of_mem _ hx, hxd⟩

/-- An entry the scan returns as found decodes to a name whose
lowercasing is exactly the target. -/
theorem findModuleEntry_ok_name (target : String) (es : List MODULEENTRY32)
    (e : MODULEENTRY32) (h : findModuleEntry target es = some (Except.ok e)) :
    ∃ s, e.szModule = some s ∧ asciiLower s = target := by
  induction es with
  | nil => simp [findModuleEntry] at h
  | cons x rest ih =>
    cases hs : x.szModule with
    | none => simp [findModuleEntry, hs] at h
    | some s =>
      simp only [findModuleEntry, hs] at h
      by_cases hm : asciiLower s = target
      · simp only [if_pos hm, Option.some.injEq, Except.ok.injEq] at h
        exact ⟨s, h ▸ hs, hm⟩
      · exact ih (by simpa [if_neg hm] using h)

/-- `module_entry_by_name` depends on its argument only through the
normalized (extension-forced, lowercased) name. -/
theorem module_entry_by_name_congr (api : NativeApi) (p : Process) (n1 n2 : String)
    (h : asciiLower (withExtensionDll n1) = asciiLower (withExtensionDll n2)) :
    Process.module_entry_by_name api p n1 = Process.module_entry_by_name api p n2 := by
  simp only [Process.module_entry_by_name, pathToStr, h]

/-- An entry returned by a successful, matching lookup decodes to a name
whose lowercasing equals the normalized query. -/
theorem module_entry_by_name_ok_some_name (api : NativeApi) (p : Process) (name : String)
    (e : MODULEENTRY32)
    (h : Process.module_entry_by_name api p name = Except.ok (some e)) :
    ∃ s, e.szModule = some s ∧ asciiLower s = asciiLower (withExtensionDll name) := by
  simp only [Process.module_entry_by_name, pathToStr, Process.snapshot, Process.pid,
    Snapshot.from_pid, Snapshot.module_entries] at h
  by_cases hpid : api.getProcessId p.handle = 0
  · simp [if_pos hpid] at h
  · simp only [if_neg hpid] at h
    cases hsnap : api.createToolhelp32Snapshot (TH32CS_SNAPMODULE ||| TH32CS_SNAPMODULE32)
        (api.getProcessId p.handle) with
    | none => simp [hsnap] at h
    | some es =>
      simp only [hsnap] at h
      cases hfind : findModuleEntry (asciiLower (withExtensionDll name)) es with
      | none => simp [hfind] at h
      | some r =>
        cases r with
        | error err => simp [hfind] at h
        | ok x =>
          simp only [hfind, Except.ok.injEq, Option.some.injEq] at h
          exact h ▸ findModuleEntry_ok_name _ _ _ hfind

/-- C1: `write_memory` with a null address, `read_memory` with a null
address, and `read_memory` with an empty buffer each return the
corresponding precondition `Error`.  Each result is the same fixed error
value for every native environment `api`, so no native call influences
it (the guard fires before the native call) and no `Ok` is returned. -/
theorem write_read_null_and_empty_preconditions
    (api : NativeApi) (p : Process) (data buffer : List Nat) (address : Nat) :
    Process.write_memory api p data 0 = Except.error ⟨"Address to write to is null"⟩
    ∧ Process.read_memory api p buffer 0 = Except.error ⟨"Address to read from is null"⟩
    ∧ (address ≠ 0 →
        Process.read_memory api p [] address = Except.error ⟨"Buffer length is zero"⟩) := by
  refine ⟨rfl, rfl, fun h => ?_⟩
  simp [Process.read_memory, if_neg h]

/-- Witness for C1 at the all-failing environment, handle 1, address 7. -/
theorem write_read_null_and_empty_preconditions_witness :
    (7 : Nat) ≠ 0
    ∧ Process.read_memory apiZero ⟨1⟩ [] 7 = Except.error ⟨"Buffer length is zero"⟩ :=
  ⟨by decide, (write_read_null_and_empty_preconditions apiZero ⟨1⟩ [1] [2] 7).2.2 (by decide)⟩

/-- C2: when the native `VirtualProtectEx` call reports success
(non-zero return code), `virtual_protect` returns `Ok` carrying exactly
the value the native call wrote to its `old_protect` out-parameter —
the protection in effect on the region before the call, not the newly
requested `protect` argument — and when it reports failure (zero return
code), `virtual_protect` returns an `Error`. -/
theorem virtual_protect_returns_previous_protection
    (api : NativeApi) (p : Process) (address size protect : Nat) :
    ((api.virtualProtectEx p.handle address size protect).1 ≠ 0 →
        Process.virtual_protect api p address size protect =
          Except.ok (api.virtualProtectEx p.handle address size protect).2)
    ∧ ((api.virtualProtectEx p.handle address size protect).1 = 0 →
        Process.virtual_protect api p address size protect =
          Except.error ⟨"VirtualProtectEx returned NULL"⟩) := by
  constructor <;> intro h <;> simp [Process.virtual_protect, h]

/-- Witness for C2: in `apiOne` the native call succeeds and reports `7`
as the previous protection, so requesting protection `4` returns
`Ok 7`, the prior value, not the requested `4`. -/
theorem virtual_protect_returns_previous_protection_witness :
    (apiOne.virtualProtectEx (1 : Int) 4096 16 4).1 ≠ 0
    ∧ Process.virtual_protect apiOne ⟨1⟩ 4096 16 4 = Except.ok 7
    ∧ (7 : Nat) ≠ 4 :=
  ⟨by decide,
    (virtual_protect_returns_previous_protection apiOne ⟨1⟩ 4096 16 4).1 (by decide),
    by decide⟩

/-- C5: `from_current` is a total function (return type `Process`, not a
`Result`: it cannot fail), the wrapped pseudo-handle is flagged
non-closable, and for every native environment the close logic on it is
the no-op `Ok ()` — a fixed result for every `api`, so the pseudo-handle
is never passed to the native close primitive. -/
theorem from_current_total_and_close_noop :
    Process.from_current.is_handle_closable = false
    ∧ ∀ api : NativeApi, Process.close_handle api Process.from_current = Except.ok () :=
  ⟨rfl, fun _ => rfl⟩

/-- C6: `from_pid` returns an `Error` exactly when `OpenProcess` yields
the null handle, and otherwise returns `Ok` wrapping exactly the
non-null handle the native call produced. -/
theorem from_pid_null_handle_check
    (api : NativeApi) (pid access : Nat) (inherit : Bool) :
    (api.openProcess access (if inherit then 1 else 0) pid = 0 →
        Process.from_pid api pid access inherit =
          Except.error ⟨"OpenProcess returned NULL"⟩)
    ∧ (api.openProcess access (if inherit then 1 else 0) pid ≠ 0 →
        Process.from_pid api pid access inherit =
          Except.ok ⟨api.openProcess access (if inherit then 1 else 0) pid⟩) := by
  constructor <;> intro h <;> simp [Process.from_pid, h]

/-- Witness for C6, both branches: the all-failing environment yields
the error, the all-succeeding one yields `Ok` around its handle `1`. -/
theorem from_pid_null_handle_check_witness :
    (apiZero.openProcess 1 0 5 = 0
      ∧ Process.from_pid apiZero 5 1 false = Except.error ⟨"OpenProcess returned NULL"⟩)
    ∧ (apiOne.openProcess 1 0 5 ≠ 0
      ∧ Process.from_pid apiOne 5 1 false = Except.ok ⟨1⟩) :=
  ⟨⟨rfl, (from_pid_null_handle_check apiZero 5 1 false).1 rfl⟩,
    ⟨by decide, (from_pid_null_handle_check apiOne 5 1 false).2 (by decide)⟩⟩

/-- C7: the drop glue of `Process` is exactly one invocation of
`close_handle`, and its outcome characterizes the control flow: it
panics (does not return normally) precisely when `close_handle` reports
a failure, and returns normally precisely when `close_handle` succeeds —
a release failure is never silently ignored. -/
theorem drop_fatal_iff_close_handle_fails (api : NativeApi) (p : Process) :
    (Process.drop api p = none ↔ ∃ e, Process.close_handle api p = Except.error e)
    ∧ (Process.drop api p = some () ↔ Process.close_handle api p = Except.ok ()) := by
  cases h : Process.close_handle api p with
  | ok u => cases u; simp [Process.drop, h]
  | error e => simp [Process.drop, h]

/-- C9: `write_memory` has no empty-data guard: with a non-zero address
and empty data it forwards to the native write call and returns whatever
that call signals (`Ok` with the reported count on a non-zero return
code, the native-failure `Error` on a zero one), while `read_memory`
with an empty buffer at the same address is rejected before any native
call. -/
theorem write_memory_empty_data_passthrough
    (api : NativeApi) (p : Process) (address : Nat) (h : address ≠ 0) :
    ((api.writeProcessMemory p.handle address []).1 ≠ 0 →
        Process.write_memory api p [] address =
          Except.ok (api.writeProcessMemory p.handle address []).2)
    ∧ ((api.writeProcessMemory p.handle address []).1 = 0 →
        Process.write_memory api p [] address =
          Except.error ⟨"WriteProcessMemory failed"⟩)
    ∧ Process.read_memory api p [] address = Except.error ⟨"Buffer length is zero"⟩ := by
  refine ⟨fun hret => ?_, fun hret => ?_, ?_⟩
  · simp [Process.write_memory, if_neg h, hret]
  · simp [Process.write_memory, if_neg h, hret]
  · simp [Process.read_memory, if_neg h]

/-- Witness for C9 at address 7 in the all-succeeding environment: the
empty write goes through natively (`Ok 0`), the empty read is
rejected. -/
theorem write_memory_empty_data_passthrough_witness :
    (7 : Nat) ≠ 0
    ∧ Process.write_memory apiOne ⟨1⟩ [] 7 = Except.ok 0
    ∧ Process.read_memory apiOne ⟨1⟩ [] 7 = Except.error ⟨"Buffer length is zero"⟩ :=
  ⟨by decide,
    (write_memory_empty_data_passthrough apiOne ⟨1⟩ 7 (by decide)).1 (by decide),
    (write_memory_empty_data_passthrough apiOne ⟨1⟩ 7 (by decide)).2.2⟩

/-- C3: when the pid query and snapshot creation succeed, every scanned
entry's display name decodes, and no entry's lowercased name equals the
normalized query, `module_entry_by_name` returns `Ok None`, not an
`Error`; and conversely any `Error` it returns stems from a failed pid
query, a failed snapshot creation, or an entry whose display name fails
to decode.  (Name normalization, the remaining error source the spec
lists, cannot fail in the model: the path is built from valid text.) -/
theorem module_entry_by_name_none_vs_error (api : NativeApi) (p : Process) (name : String) :
    (∀ es : List MODULEENTRY32,
        api.getProcessId p.handle ≠ 0 →
        api.createToolhelp32Snapshot (TH32CS_SNAPMODULE ||| TH32CS_SNAPMODULE32)
            (api.getProcessId p.handle) = some es →
        (∀ e ∈ es, ∃ s, e.szModule = some s
            ∧ asciiLower s ≠ asciiLower (withExtensionDll name)) →
        Process.module_entry_by_name api p name = Except.ok none)
    ∧ (∀ err : Error,
        Process.module_entry_by_name api p name = Except.error err →
        api.getProcessId p.handle = 0
        ∨ api.createToolhelp32Snapshot (TH32CS_SNAPMODULE ||| TH32CS_SNAPMODULE32)
            (api.getProcessId p.handle) = none
        ∨ ∃ es, api.createToolhelp32Snapshot (TH32CS_SNAPMODULE ||| TH32CS_SNAPMODULE32)
              (api.getProcessId p.handle) = some es
            ∧ ∃ e ∈ es, e.szModule = none) := by
  constructor
  · intro es hpid hsnap hnomatch
    simp only [Process.module_entry_by_name, pathToStr, Process.snapshot, Process.pid,
      Snapshot.from_pid, Snapshot.module_entries, if_neg hpid, hsnap,
      findModuleEntry_eq_none _ _ hnomatch]
  · intro err herr
    by_cases hpid : api.getProcessId p.handle = 0
    · exact Or.inl hpid
    · cases hsnap : api.createToolhelp32Snapshot (TH32CS_SNAPMODULE ||| TH32CS_SNAPMODULE32)
          (api.getProcessId p.handle) with
      | none => exact Or.inr (Or.inl rfl)
      | some es =>
        cases hfind : findModuleEntry (asciiLower (withExtensionDll name)) es with
        | none =>
          have hval : Process.module_entry_by_name api p name = Except.ok none := by
            simp only [Process.module_entry_by_name, pathToStr, Process.snapshot, Process.pid,
              Snapshot.from_pid, Snapshot.module_entries, if_neg hpid, hsnap, hfind]
          rw [hval] at herr
          simp at herr
        | some r =>
          cases r with
          | ok e =>
            have hval : Process.module_entry_by_name api p name = Except.ok (some e) := by
              simp only [Process.module_entry_by_name, pathToStr, Process.snapshot, Process.pid,
                Snapshot.from_pid, Snapshot.module_entries, if_neg hpid, hsnap, hfind]
            rw [hval] at herr
            simp at herr
          | error e2 =>
            exact Or.inr (Or.inr ⟨es, rfl, findModuleEntry_error_decode_failure _ _ _ hfind⟩)

/-- Witness for C3, first part, in an environment whose only module is
`bar.dll`: looking up `foo` succeeds with `None`. -/
theorem module_entry_by_name_none_vs_error_witness :
    apiBar.getProcessId (1 : Int) ≠ 0
    ∧ apiBar.createToolhelp32Snapshot (TH32CS_SNAPMODULE ||| TH32CS_SNAPMODULE32)
        (apiBar.getProcessId (1 : Int)) = some [⟨some "bar.dll"⟩]
    ∧ Process.module_entry_by_name apiBar ⟨1⟩ "foo" = Except.ok none :=
  ⟨by decide, rfl,
    (module_entry_by_name_none_vs_error apiBar ⟨1⟩ "foo").1 [⟨some "bar.dll"⟩]
      (by decide) rfl
      (by
        intro e he
        simp only [List.mem_singleton] at he
        exact ⟨"bar.dll", by simp [he], by decide⟩)⟩

/-- C4: the lookup is invariant under case changes and under the
presence or absence of the `.dll` suffix: both `"foo"` and `"FOO.DLL"`
normalize to `foo.dll`, so on a process whose module snapshot contains
an entry literally named `foo.dll` the two lookups return the same
result. -/
theorem module_entry_by_name_case_extension_invariant (api : NativeApi) (p : Process)
    (snap : Snapshot)
    (_hsnap : Process.snapshot api p (TH32CS_SNAPMODULE ||| TH32CS_SNAPMODULE32)
      = Except.ok snap)
    (_hmem : (⟨some "foo.dll"⟩ : MODULEENTRY32) ∈ snap.entries) :
    asciiLower (withExtensionDll "foo") = "foo.dll"
    ∧ asciiLower (withExtensionDll "FOO.DLL") = "foo.dll"
    ∧ Process.module_entry_by_name api p "foo"
        = Process.module_entry_by_name api p "FOO.DLL" :=
  ⟨by decide, by decide, module_entry_by_name_congr api p "foo" "FOO.DLL" (by decide)⟩

/-- Witness for C4 in an environment whose module snapshot holds exactly
one module, named `foo.dll`. -/
theorem module_entry_by_name_case_extension_invariant_witness :
    Process.snapshot apiFoo ⟨1⟩ (TH32CS_SNAPMODULE ||| TH32CS_SNAPMODULE32)
        = Except.ok ⟨[⟨some "foo.dll"⟩]⟩
    ∧ (⟨some "foo.dll"⟩ : MODULEENTRY32) ∈ [(⟨some "foo.dll"⟩ : MODULEENTRY32)]
    ∧ Process.module_entry_by_name apiFoo ⟨1⟩ "foo"
        = Process.module_entry_by_name apiFoo ⟨1⟩ "FOO.DLL" :=
  ⟨rfl, by decide,
    (module_entry_by_name_case_extension_invariant apiFoo ⟨1⟩ ⟨[⟨some "foo.dll"⟩]⟩
      rfl (by decide)).2.2⟩

/-- C10: normalization replaces an existing non-dll extension rather
than appending: `"foo.exe"` normalizes to `foo.dll`, the lookup for
`"foo.exe"` coincides with the lookup for `"foo.dll"`, and it can never
return a module entry literally named `foo.exe`. -/
theorem module_entry_by_name_replaces_extension :
    asciiLower (withExtensionDll "foo.exe") = "foo.dll"
    ∧ ∀ (api : NativeApi) (p : Process),
        Process.module_entry_by_name api p "foo.exe"
            = Process.module_entry_by_name api p "foo.dll"
        ∧ ∀ e : MODULEENTRY32,
            Process.module_entry_by_name api p "foo.exe" = Except.ok (some e) →
            e.szModule ≠ some "foo.exe" := by
  refine ⟨by decide, fun api p =>
    ⟨module_entry_by_name_congr api p "foo.exe" "foo.dll" (by decide), fun e he hname => ?_⟩⟩
  obtain ⟨s, hs, hlow⟩ := module_entry_by_name_ok_some_name api p "foo.exe" e he
  rw [hname, Option.some.injEq] at hs
  rw [← hs] at hlow
  exact absurd hlow (by decide)

/-- Witness for C10 in an environment whose modules are `foo.exe` then
`foo.dll`: the lookup for `"foo.exe"` finds the entry named `foo.dll`
(not the one literally named `foo.exe`). -/
theorem module_entry_by_name_replaces_extension_witness :
    Process.module_entry_by_name apiFooExe ⟨1⟩ "foo.exe"
        = Except.ok (some ⟨some "foo.dll"⟩)
    ∧ (⟨some "foo.dll"⟩ : MODULEENTRY32).szModule ≠ some "foo.exe" :=
  ⟨rfl,
    (module_entry_by_name_replaces_extension.2 apiFooExe ⟨1⟩).2 ⟨some "foo.dll"⟩ rfl⟩

/-- Reading back exactly the region a write stored returns the stored
bytes. -/
theorem memRead_memWrite (m : Nat → Nat) (addr : Nat) (data : List Nat) :
    memRead (memWrite m addr data) addr data.length = data := by
  unfold memRead memWrite
  apply List.ext_getElem
  · simp
  · intro i h1 h2
    simp only [List.getElem_map, List.getElem_range]
    rw [if_pos ⟨Nat.le_add_right _ _, by rw [Nat.add_sub_cancel_left]; exact h2⟩,
      Nat.add_sub_cancel_left]
    exact List.getD_eq_getElem data 0 h2

/-- C8: over the memory-refined boundary, a successful `write_memory` of
non-empty `data` at a non-zero `address` (reporting the full
`data.length` count), followed by `read_memory` with a buffer of the
same length at the same address against the resulting memory state (no
intervening mutation), succeeds and returns exactly the written bytes. -/
theorem write_then_read_roundtrip (p : Process) (env : MemEnv) (data : List Nat)
    (address : Nat) (env2 : MemEnv) (hdata : data ≠ []) (haddr : address ≠ 0)
    (hw : Process.write_memory_mem p env data address = Except.ok (data.length, env2)) :
    Process.read_memory_mem p env2 data.length address = Except.ok (data.length, data) := by
  simp only [Process.write_memory_mem, if_neg haddr] at hw
  by_cases hacc : env.accessible address data.length
  · simp only [if_pos hacc, Except.ok.injEq, Prod.mk.injEq, true_and] at hw
    have hlen : data.length ≠ 0 := fun h => hdata (List.length_eq_zero.mp h)
    rw [← hw]
    simp only [Process.read_memory_mem, if_neg haddr, if_neg hlen, if_pos hacc,
      memRead_memWrite]
  · simp [if_neg hacc] at hw

/-- Witness for C8: writing `[0x90, 0x90, 0x90, 0x90]` at address 4096
into all-zero, all-accessible memory, then reading 4 bytes back from
4096, returns the written bytes. -/
theorem write_then_read_roundtrip_witness :
    ([144, 144, 144, 144] : List Nat) ≠ []
    ∧ (4096 : Nat) ≠ 0
    ∧ Process.write_memory_mem ⟨1⟩ envZeroAll [144, 144, 144, 144] 4096
        = Except.ok (4, ⟨memWrite envZeroAll.mem 4096 [144, 144, 144, 144],
            envZeroAll.accessible⟩)
    ∧ Process.read_memory_mem ⟨1⟩
        ⟨memWrite envZeroAll.mem 4096 [144, 144, 144, 144], envZeroAll.accessible⟩ 4 4096
        = Except.ok (4, [144, 144, 144, 144]) :=
  ⟨by decide, by decide, rfl,
    write_then_read_roundtrip ⟨1⟩ envZeroAll [144, 144, 144, 144] 4096
      ⟨memWrite envZeroAll.mem 4096 [144, 144, 144, 144], envZeroAll.accessible⟩
      (by decide) (by decide) rfl⟩

end Winapiwrapper
